import Mathlib

/-
Verification of the suggestion-catalog core of the things-to-check service.

The embedding follows the Rust sources: src/src/view.rs (catalog, selection,
retrieval endpoint), src/build.rs (build-time rendering), src/src/bin/web.rs
(startup propagation). External dependencies (pulldown-cmark, serde_yaml,
serde_urlencoded, the rand crate, the actix routing context) are modelled
explicitly where the specification constrains them; each such model is marked
in its doc comment. Strings are modelled by Lean String values; the RNG draw
of thread_rng is passed to each call as an explicit natural number.
-/

namespace ThingsToCheck

/-- Escape one character the way the HTML generators do: the characters
ampersand, less-than, greater-than and double quote become entities, every
other character is emitted literally. -/
def escapeHtmlChar : Char → List Char
  | '&' => ['&', 'a', 'm', 'p', ';']
  | '<' => ['&', 'l', 't', ';']
  | '>' => ['&', 'g', 't', ';']
  | '"' => ['&', 'q', 'u', 'o', 't', ';']
  | c => [c]

/-- Escape a whole character list. -/
def escapeChars (l : List Char) : List Char :=
  (l.map escapeHtmlChar).flatten

/-- Escape a string for embedding in HTML text or attribute positions. -/
def escapeHtml (s : String) : String :=
  String.mk (escapeChars s.data)

/-- The backtick character (code point 96), which delimits inline code spans. -/
def codeDelim : Char := Char.ofNat 96

/-- Pending link state of the inline markdown pass: outside any link, inside
the bracketed link text, or inside the parenthesized link target. -/
inductive LinkMode where
  | closed
  | text (acc : List Char)
  | url (txt : List Char) (acc : List Char)
deriving DecidableEq

/-- Emit an unterminated link construct literally (best-effort degradation for
malformed markdown, which must never fail). -/
def flushLink : LinkMode → List Char
  | .closed => []
  | .text acc => '[' :: escapeChars acc
  | .url txt acc => '[' :: (escapeChars txt ++ (']' :: '(' :: escapeChars acc))

/-- An HTML anchor for a markdown link. -/
def anchor (txt url : List Char) : List Char :=
  "<a href=\"".data ++ escapeChars url ++ "\">".data ++ escapeChars txt ++ "</a>".data

/-- Close any emphasis or code tags still open at end of input. -/
def closeTags (st em cd : Bool) : List Char :=
  (if cd then "</code>".data else [])
    ++ (if em then "</em>".data else [])
    ++ (if st then "</strong>".data else [])

/-- Modelled from the spec: the inline pass of the markdown renderer. The
renderer is the external pulldown-cmark dependency, not part of this
repository; per spec 4.1 it is a pure total function supporting at least
paragraphs, emphasis, links and inline code, degrading gracefully on malformed
input. The flags track open strong emphasis, open emphasis and an open inline
code span. -/
def renderInline : Bool → Bool → Bool → LinkMode → List Char → List Char
  | st, em, cd, mode, [] => flushLink mode ++ closeTags st em cd
  | st, em, cd, .text acc, ']' :: '(' :: rest => renderInline st em cd (.url acc []) rest
  | st, em, cd, .text acc, ']' :: rest =>
      ('[' :: escapeChars acc) ++ (']' :: renderInline st em cd .closed rest)
  | st, em, cd, .text acc, c :: rest => renderInline st em cd (.text (acc ++ [c])) rest
  | st, em, cd, .url txt acc, ')' :: rest => anchor txt acc ++ renderInline st em cd .closed rest
  | st, em, cd, .url txt acc, c :: rest => renderInline st em cd (.url txt (acc ++ [c])) rest
  | st, em, true, .closed, c :: rest =>
      if c = codeDelim then "</code>".data ++ renderInline st em false .closed rest
      else escapeHtmlChar c ++ renderInline st em true .closed rest
  | st, em, false, .closed, '*' :: '*' :: rest =>
      (if st then "</strong>".data else "<strong>".data) ++ renderInline (!st) em false .closed rest
  | st, em, false, .closed, '*' :: rest =>
      (if em then "</em>".data else "<em>".data) ++ renderInline st (!em) false .closed rest
  | st, em, false, .closed, '[' :: rest => renderInline st em false (.text []) rest
  | st, em, false, .closed, c :: rest =>
      if c = codeDelim then "<code>".data ++ renderInline st em true .closed rest
      else escapeHtmlChar c ++ renderInline st em false .closed rest

/-- Modelled from the spec: markdown rendering via pulldown-cmark under
Options::empty, as invoked by both Thing conversions. A nonempty input is
rendered as one paragraph of the baseline inline subset; the empty input
renders to the empty document. -/
def render (markdown : String) : String :=
  match markdown.data with
  | [] => ""
  | l => String.mk ("<p>".data ++ renderInline false false false .closed l ++ "</p>\n".data)

/-- One suggestion, holding the raw markdown and its HTML rendering, computed
once at load time (struct Thing in src/src/view.rs). -/
structure Thing where
  markdown : String
  html : String
deriving DecidableEq

/-- The From String impl for Thing in src/src/view.rs: keep the markdown and
render it once with pulldown-cmark under Options::empty. -/
def Thing.fromMarkdown (markdown : String) : Thing :=
  let html := render markdown
  ⟨markdown, html⟩

/-- The Thing struct included by src/build.rs from src/thing.struct.rs. That
file is not among the provided sources; its two fields are fixed by their uses
in build.rs. -/
structure BuildThing where
  markdown : String
  html : String
deriving DecidableEq

/-- The From String impl for Thing in src/build.rs: the same pulldown-cmark
rendering under Options::empty as the one in src/src/view.rs. -/
def BuildThing.fromMarkdown (markdown : String) : BuildThing :=
  let html := render markdown
  ⟨markdown, html⟩

/-- Query parameters of the retrieval endpoint (struct ItemQuery in
src/src/view.rs): an optional unsigned index named item. -/
structure ItemQuery where
  item : Option Nat
deriving DecidableEq

/-- The From reference-to-usize impl for ItemQuery in src/src/view.rs. -/
def ItemQuery.fromIdx (idx : Nat) : ItemQuery :=
  ⟨some idx⟩

/-- ItemQuery::default(): no item requested. -/
def ItemQuery.dflt : ItemQuery :=
  ⟨none⟩

/-- The decimal digit character for a digit value: code point 48 plus the
value. The reduction modulo ten only guards non-digit inputs, which the
encoder never produces. -/
def digitChar (d : Nat) : Char :=
  Char.ofNat (48 + d % 10)

/-- Decimal digit value of a character, if its code point lies in the digit
range. -/
def charDigit? (c : Char) : Option Nat :=
  if 48 ≤ c.toNat ∧ c.toNat ≤ 57 then some (c.toNat - 48) else none

/-- Modelled from the spec: the decimal form of an unsigned integer as written
by the external serde_urlencoded serializer — big-endian decimal digits. -/
def natEncode (n : Nat) : List Char :=
  if n = 0 then ['0'] else (Nat.digits 10 n).reverse.map digitChar

/-- Left-to-right decimal accumulator of the url-decoding model; fails on the
first non-digit character. -/
def decToNatAux : Nat → List Char → Option Nat
  | a, [] => some a
  | a, c :: cs =>
    match charDigit? c with
    | some d => decToNatAux (10 * a + d) cs
    | none => none

/-- Modelled from the spec: the decimal parse of an unsigned integer as read
by the external serde_urlencoded deserializer — nonempty all-digit strings
only. -/
def decToNat : List Char → Option Nat
  | [] => none
  | c :: cs => decToNatAux 0 (c :: cs)

/-- Modelled from the spec: serde_urlencoded serialization of an ItemQuery
under standard form encoding — the pair item=n for a present index, the empty
query string for an absent one. -/
def serializeItemQueryChars : ItemQuery → List Char
  | ⟨none⟩ => []
  | ⟨some n⟩ => 'i' :: 't' :: 'e' :: 'm' :: '=' :: natEncode n

/-- String form of the serialized query. -/
def serializeItemQuery (q : ItemQuery) : String :=
  String.mk (serializeItemQueryChars q)

/-- Modelled from the spec: serde_urlencoded deserialization of an ItemQuery,
as performed by the actix Query extractor in front of the handler (outside
src/). The empty query yields no requested item; an item pair must carry a
decimal index; anything else fails to deserialize. -/
def parseQueryChars : List Char → Option ItemQuery
  | [] => some ⟨none⟩
  | c1 :: c2 :: c3 :: c4 :: c5 :: rest =>
    if c1 = 'i' ∧ c2 = 't' ∧ c3 = 'e' ∧ c4 = 'm' ∧ c5 = '=' then
      match decToNat rest with
      | some n => some ⟨some n⟩
      | none => none
    else none
  | _ => none

/-- Query deserialization on strings. -/
def parseQuery (s : String) : Option ItemQuery :=
  parseQueryChars s.data

/-- The index_url method of the Urls trait in src/src/view.rs: url_for of the
index route followed by set_query of the serialized ItemQuery. The external
actix routing context is modelled by the base URL of the endpoint, and url_for
as always resolving, since the service registers the index route
unconditionally. -/
def index_url (base : String) (query : ItemQuery) : String :=
  String.mk (base.data ++ '?' :: serializeItemQueryChars query)

/-- The query portion of a URL: every character after the first question
mark. -/
def urlQueryChars (url : String) : List Char :=
  (url.data.dropWhile (fun c => c ≠ '?')).drop 1

/-- The catalog: struct Things in src/src/view.rs, a vector of pairs of a
stable index and the rendered suggestion. -/
structure Things where
  val : List (Nat × Thing)
deriving DecidableEq

/-- The success path of load_things in src/src/view.rs: map the Thing
conversion over the raw strings and enumerate the results in order. -/
def mkThings (raw_things : List String) : Things :=
  ⟨(raw_things.map Thing.fromMarkdown).enum⟩

/-- view::Error in src/src/view.rs: the only variant wraps the yaml
deserialization error. -/
inductive Error where
  | DeserializeError (e : String)
deriving DecidableEq

/-- load_things in src/src/view.rs, with the external serde_yaml parser passed
explicitly as a function from the raw source text to either an error or the
ordered list of raw strings. A failed parse maps to Error.DeserializeError; a
successful parse always yields the enumerated, rendered catalog. -/
def load_things (parse : String → Except String (List String)) (src : String) :
    Except Error Things :=
  match parse src with
  | .error e => .error (.DeserializeError e)
  | .ok raw_things => .ok (mkThings raw_things)

/-- make_service in src/src/view.rs: load the catalog from the included YAML
and, on success, return the service configuration holding it. The error case
propagates to main in src/src/bin/web.rs, which aborts startup, so the model
identifies the configured service with its catalog. -/
def make_service (parse : String → Except String (List String)) (src : String) :
    Except Error Things :=
  load_things parse src

/-- The choose method of SliceRandom from the external rand crate: none on an
empty slice, otherwise the element at the RNG draw, reduced modulo the length.
The draw is uniform over the slice when the RNG value is drawn uniformly from
below the length. -/
def choose (l : List (Nat × Thing)) (r : Nat) : Option (Nat × Thing) :=
  if l.length = 0 then none else l[r % l.length]?

/-- The per-request error surface of the handler: ErrorNotFound in
src/src/view.rs. -/
inductive HttpError where
  | notFound (msg : String)
deriving DecidableEq

/-- An HTTP response: a body and its headers. -/
structure Response where
  body : String
  headers : List (String × String)
deriving DecidableEq

/-- The with_header combinator on an actix Responder. -/
def Response.withHeader (resp : Response) (k v : String) : Response :=
  { resp with headers := (k, v) :: resp.headers }

/-- The stylesheet function in src/src/view.rs: a style element holding the
raw CSS constant. -/
def stylesheet : String :=
  "<style>\n            body \x7b\n                background: #dddde7;\n                font-color: #888;\n                font-family: Helvetica, sans-serif;\n                display: flex;\n                flex-direction: column;\n                justify-content: center;\n                height: 100vh;\n                margin: 0;\n            \x7d\n\n            section \x7b\n                width: 600px;\n                margin: auto;\n            \x7d\n\n            p \x7b\n                font-size: 24px;\n            \x7d\n\n            a \x7b\n                text-decoration: none;\n            \x7d\n            </style>"

/-- The og_card function in src/src/view.rs: the OpenGraph meta elements. -/
def og_card (title description : String) : String :=
  "<meta property=\"og:type\" content=\"website\">"
    ++ "<meta property=\"og:title\" content=\"" ++ escapeHtml title ++ "\">"
    ++ "<meta property=\"og:description\" content=\"" ++ escapeHtml description ++ "\">"

/-- The suggestion_link function in src/src/view.rs: a paragraph holding one
link whose target is the retrieval endpoint with the given query. -/
def suggestion_link (base : String) (query : ItemQuery) (body : String) : String :=
  "<p><a href=\"" ++ escapeHtml (index_url base query) ++ "\">" ++ body ++ "</a></p>"

/-- The github_badge function in src/src/view.rs. -/
def github_badge (repo : String) : String :=
  "<a href=\"https://github.com/" ++ repo
    ++ "\"><img style=\"position: absolute; top: 0; right: 0; border: 0;\" src=\"https://camo.githubusercontent.com/38ef81f8aca64bb9a64448d0d70f1308ef5341ab/68747470733a2f2f73332e616d617a6f6e6177732e636f6d2f6769746875622f726962626f6e732f666f726b6d655f72696768745f6461726b626c75655f3132313632312e706e67\" alt=\"Fork me on GitHub\" data-canonical-src=\"https://s3.amazonaws.com/github/ribbons/forkme_right_darkblue_121621.png\"></a>"

/-- The index_view function in src/src/view.rs: the full suggestion page built
from the maud template — title and OpenGraph card from the raw markdown, the
precomputed HTML body, a random-suggestion link with the default query, and a
share link carrying the index of this entry. -/
def index_view (base : String) (idx : Nat) (thing : Thing) : String :=
  "<!DOCTYPE html><html><head><title>" ++ escapeHtml thing.markdown ++ "</title>"
    ++ stylesheet
    ++ og_card "Troubleshooting suggestion" thing.markdown
    ++ "</head><body><section>"
    ++ thing.html
    ++ suggestion_link base ItemQuery.dflt "That wasn\x27t it, suggest something else."
    ++ suggestion_link base (ItemQuery.fromIdx idx) "Share this troubleshooting suggestion."
    ++ "</section>"
    ++ github_badge "ojacobson/things-to-check"
    ++ "</body></html>"

/-- The selection step of the index handler in src/src/view.rs: the first
match on query.item — an explicit index goes to the vector lookup, an absent
one to the random choice. -/
def select (things : Things) (item : Option Nat) (r : Nat) : Option (Nat × Thing) :=
  match item with
  | some i => things.val[i]?
  | none => choose things.val r

/-- The index handler (GET on the root path) in src/src/view.rs. The RNG draw
of thread_rng is the explicit argument r. A failed selection returns the
not-found error; a successful one renders the page for the selected pair and
attaches the Cache-Control no-store header. -/
def index (things : Things) (item : Option Nat) (base : String) (r : Nat) :
    Except HttpError Response :=
  match select things item r with
  | none => .error (.notFound "Not found")
  | some (idx, th) =>
    .ok ((Response.mk (index_view base idx th) []).withHeader "Cache-Control" "no-store")

/-- Modelled from the spec: the query-extraction step in front of the handler
(the actix Query extractor, outside src/). Per spec section 6, an item value
that fails to deserialize maps to the not-found outcome of the retrieval
endpoint. -/
def handle_request (things : Things) (rawQuery : String) (base : String) (r : Nat) :
    Except HttpError Response :=
  match parseQuery rawQuery with
  | none => .error (.notFound "Not found")
  | some q => index things q.item base r

/-- Modelled from the spec: the structured message payload of the
chat-integration endpoint (spec section 6), holding the response type and the
raw markdown text. -/
structure SlackResponse where
  response_type : String
  text : String
deriving DecidableEq

/-- Modelled from the spec: the chat-integration endpoint (a Slack-style slash
command, spec section 6) is part of this repository but absent from the
provided sources. It ignores the request body and any index, always chooses a
random entry, and returns the in_channel payload holding the unrendered
markdown of the chosen entry. -/
def slack_handler (things : Things) (_body : String) (_item : Option Nat) (r : Nat) :
    Except HttpError SlackResponse :=
  match choose things.val r with
  | none => .error (.notFound "Not found")
  | some (_, th) => .ok ⟨"in_channel", th.markdown⟩

/-- The catalog stores, at each position, that position paired with the
rendering of the raw string at the same position of the source list. -/
theorem mkThings_getElem? (S : List String) (i : Nat) :
    (mkThings S).val[i]? = (S[i]?).map fun s => (i, Thing.fromMarkdown s) := by
  simp only [mkThings, List.getElem?_enum, List.getElem?_map, Option.map_map]
  rfl

/-- The catalog has one entry per raw string. -/
theorem mkThings_length (S : List String) : (mkThings S).val.length = S.length := by
  simp [mkThings]

/-- Digit characters decode to the digits they encode. -/
theorem charDigit?_digitChar (d : Nat) (hd : d < 10) :
    charDigit? (digitChar d) = some d := by
  interval_cases d <;> rfl

/-- The decimal accumulator consumes an all-digit block as a left fold. -/
theorem decToNatAux_digits (l : List Nat) (hl : ∀ d ∈ l, d < 10) (a : Nat) :
    decToNatAux a (l.map digitChar) = some (l.foldl (fun x d => 10 * x + d) a) := by
  induction l generalizing a with
  | nil => rfl
  | cons d t ih =>
    have hd : d < 10 := hl d (by simp)
    have ht : ∀ x ∈ t, x < 10 := fun x hx => hl x (by simp [hx])
    simp [decToNatAux, charDigit?_digitChar d hd, ih ht]

/-- Folding decimal digits most-significant-first computes the number the
little-endian digit list denotes. -/
theorem foldl_reverse_ofDigits (l : List Nat) (a : Nat) :
    l.reverse.foldl (fun x d => 10 * x + d) a = a * 10 ^ l.length + Nat.ofDigits 10 l := by
  induction l generalizing a with
  | nil => simp
  | cons d t ih =>
    simp only [List.reverse_cons, List.foldl_append, List.foldl_cons, List.foldl_nil, ih,
      Nat.ofDigits_cons, List.length_cons, pow_succ]
    ring

/-- On a nonempty character list the decimal parser is the accumulator run. -/
theorem decToNat_ne_nil (l : List Char) (h : l ≠ []) : decToNat l = decToNatAux 0 l := by
  cases l with
  | nil => exact absurd rfl h
  | cons c cs => rfl

/-- Round trip of the decimal url-encoding: parsing the encoding of any
natural number recovers it. -/
theorem decToNat_natEncode (n : Nat) : decToNat (natEncode n) = some n := by
  by_cases h : n = 0
  · subst h; rfl
  · have hne : Nat.digits 10 n ≠ [] := Nat.digits_ne_nil_iff_ne_zero.mpr h
    have henc : natEncode n = ((Nat.digits 10 n).reverse).map digitChar := by
      simp [natEncode, h]
    have hmapne : ((Nat.digits 10 n).reverse).map digitChar ≠ [] := by
      simp [hne]
    rw [henc, decToNat_ne_nil _ hmapne]
    rw [decToNatAux_digits ((Nat.digits 10 n).reverse)
      (fun d hd => Nat.digits_lt_base (by norm_num) (List.mem_reverse.mp hd)) 0]
    rw [foldl_reverse_ofDigits]
    simp [Nat.ofDigits_digits]

/-- Round trip of query serialization: deserializing the serialized query of
an explicit index recovers exactly that index. -/
theorem parseQueryChars_serialize (i : Nat) :
    parseQueryChars (serializeItemQueryChars (ItemQuery.fromIdx i)) = some (ItemQuery.fromIdx i) := by
  have : serializeItemQueryChars (ItemQuery.fromIdx i)
      = 'i' :: 't' :: 'e' :: 'm' :: '=' :: natEncode i := rfl
  rw [this]
  simp [parseQueryChars, decToNat_natEncode, ItemQuery.fromIdx]

/-- Dropping up to the first question mark of a URL whose base contains none
lands exactly on the query separator. -/
theorem dropWhile_base (t : List Char) :
    ∀ l : List Char, (∀ c ∈ l, c ≠ '?') →
      (l ++ '?' :: t).dropWhile (fun c => c ≠ '?') = '?' :: t := by
  intro l
  induction l with
  | nil => intro _; simp [List.dropWhile]
  | cons c cs ih =>
    intro hl
    have hc : c ≠ '?' := hl c (by simp)
    have hcs : ∀ x ∈ cs, x ≠ '?' := fun x hx => hl x (by simp [hx])
    rw [List.cons_append, List.dropWhile_cons, if_pos (by simp [hc]), ih hcs]

/-- Extracting the query portion of a built index URL recovers the serialized
query, for any base URL free of question marks. -/
theorem urlQueryChars_index_url (base : String) (q : ItemQuery)
    (hb : ∀ c ∈ base.data, c ≠ '?') :
    urlQueryChars (index_url base q) = serializeItemQueryChars q := by
  show (((String.mk (base.data ++ '?' :: serializeItemQueryChars q)).data.dropWhile
    (fun c => c ≠ '?')).drop 1) = _
  rw [show (String.mk (base.data ++ '?' :: serializeItemQueryChars q)).data
      = base.data ++ '?' :: serializeItemQueryChars q from rfl]
  rw [dropWhile_base _ base.data hb]
  rfl

/-- C1: for every catalog and every explicitly requested index that is
invalid — out of range, or a non-numeric item value at the retrieval
endpoint — selection returns the not-found outcome for every RNG draw, and
never substitutes a randomly-chosen entry. -/
theorem C1_invalid_request_not_found (S : List String) (rawQuery base : String)
    (hinvalid : parseQuery rawQuery = none ∨
      ∃ i, parseQuery rawQuery = some (ItemQuery.fromIdx i) ∧ S.length ≤ i) :
    ∀ r, handle_request (mkThings S) rawQuery base r = .error (.notFound "Not found") := by
  intro r
  rcases hinvalid with h | ⟨i, h, hi⟩
  · simp [handle_request, h]
  · have hnone : (mkThings S).val[i]? = none :=
      List.getElem?_eq_none (by rw [mkThings_length]; exact hi)
    simp [handle_request, h, index, select, ItemQuery.fromIdx, hnone]

/-- Witness for C1: a non-numeric item value and an out-of-range one both
produce the not-found outcome on a one-entry catalog. -/
theorem C1_witness :
    (parseQuery "item=abc" = none ∨
      ∃ i, parseQuery "item=abc" = some (ItemQuery.fromIdx i) ∧
        (["a"] : List String).length ≤ i) ∧
    handle_request (mkThings ["a"]) "item=abc" "http://x/" 3 = .error (.notFound "Not found") ∧
    handle_request (mkThings ["a"]) "item=5" "http://x/" 3 = .error (.notFound "Not found") :=
  ⟨Or.inl (by decide),
   C1_invalid_request_not_found ["a"] "item=abc" "http://x/" (Or.inl (by decide)) 3,
   C1_invalid_request_not_found ["a"] "item=5" "http://x/"
     (Or.inr ⟨5, by decide, by decide⟩) 3⟩

/-- C2: the catalog built from S pairs each entry with its 0-based position
in S, and appending entries never changes an existing lookup: for every index
below the length of S, lookup on the extended catalog equals lookup on the
original. -/
theorem C2_index_stability (S ext : List String) (i : Nat) (hi : i < S.length) :
    (mkThings S).val[i]? = (S[i]?).map (fun s => (i, Thing.fromMarkdown s)) ∧
    (mkThings (S ++ ext)).val[i]? = (mkThings S).val[i]? := by
  refine ⟨mkThings_getElem? S i, ?_⟩
  rw [mkThings_getElem?, mkThings_getElem?, List.getElem?_append_left hi]

/-- Witness for C2 on the concrete catalog of the spec scenarios. -/
theorem C2_witness :
    1 < (["**A**", "B"] : List String).length ∧
    ((mkThings ["**A**", "B"]).val[1]? =
        ((["**A**", "B"] : List String)[1]?).map (fun s => (1, Thing.fromMarkdown s)) ∧
      (mkThings (["**A**", "B"] ++ ["C"])).val[1]? = (mkThings ["**A**", "B"]).val[1]?) :=
  ⟨by decide, C2_index_stability ["**A**", "B"] ["C"] 1 (by decide)⟩

/-- C3: share-link round trip — when explicit selection of index i on the
catalog built from S yields entry e, the share link built for i carries an
item parameter that deserializes back to exactly i, and explicit selection of
i on any appended extension of the catalog yields the same entry e. -/
theorem C3_share_link_round_trip (S ext : List String) (base : String) (i : Nat)
    (e : Nat × Thing) (r r2 : Nat)
    (hbase : ∀ c ∈ base.data, c ≠ '?')
    (he : select (mkThings S) (some i) r = some e) :
    parseQueryChars (urlQueryChars (index_url base (ItemQuery.fromIdx i)))
        = some (ItemQuery.fromIdx i) ∧
    select (mkThings (S ++ ext)) (some i) r2 = some e := by
  constructor
  · rw [urlQueryChars_index_url base _ hbase, parseQueryChars_serialize]
  · have he2 : (mkThings S).val[i]? = some e := he
    have hi : i < S.length := by
      have h := (List.getElem?_eq_some.mp he2).1
      rwa [mkThings_length] at h
    show (mkThings (S ++ ext)).val[i]? = some e
    rw [mkThings_getElem?, List.getElem?_append_left hi, ← mkThings_getElem? S i, he2]

/-- Witness for C3 on a two-entry catalog extended by one entry. -/
theorem C3_witness :
    (∀ c ∈ ("http://x/" : String).data, c ≠ '?') ∧
    select (mkThings ["a", "b"]) (some 1) 0 = some (1, Thing.fromMarkdown "b") ∧
    (parseQueryChars (urlQueryChars (index_url "http://x/" (ItemQuery.fromIdx 1)))
        = some (ItemQuery.fromIdx 1) ∧
      select (mkThings (["a", "b"] ++ ["c"])) (some 1) 9 = some (1, Thing.fromMarkdown "b")) :=
  ⟨by decide, by decide,
   C3_share_link_round_trip ["a", "b"] ["c"] "http://x/" 1 (1, Thing.fromMarkdown "b") 0 9
     (by decide) (by decide)⟩

/-- C4: random selection is a pure function of the catalog and one fresh RNG
draw, and over the uniform draws below the catalog length every valid index
is selected for exactly one draw — identical probability 1 over len per
entry, out of the len equiprobable draws. -/
theorem C4_uniform_selection (S : List String) (i : Nat) (hi : i < S.length) :
    ((Finset.range S.length).filter
        (fun r => select (mkThings S) none r = (mkThings S).val[i]?)).card = 1 ∧
    (Finset.range S.length).card = S.length := by
  refine ⟨?_, Finset.card_range _⟩
  have hlen : (mkThings S).val.length = S.length := mkThings_length S
  have hne : (mkThings S).val.length ≠ 0 := by rw [hlen]; omega
  have hsel : ∀ j, j < S.length → select (mkThings S) none j = (mkThings S).val[j]? := by
    intro j hj
    have hmod : j % (mkThings S).val.length = j := by
      rw [hlen]; exact Nat.mod_eq_of_lt hj
    show choose (mkThings S).val j = _
    unfold choose
    rw [if_neg hne, hmod]
  have hfilter : (Finset.range S.length).filter
      (fun r => select (mkThings S) none r = (mkThings S).val[i]?) = {i} := by
    ext r
    simp only [Finset.mem_filter, Finset.mem_range, Finset.mem_singleton]
    constructor
    · rintro ⟨hr, heq⟩
      rw [hsel r hr, mkThings_getElem?, mkThings_getElem?,
        List.getElem?_eq_getElem hr, List.getElem?_eq_getElem hi] at heq
      simp only [Option.map_some', Option.some.injEq, Prod.mk.injEq] at heq
      exact heq.1
    · intro hr
      rw [hr]
      exact ⟨hi, hsel i hi⟩
  rw [hfilter, Finset.card_singleton]

/-- Witness for C4 on a three-entry catalog. -/
theorem C4_witness :
    1 < (["a", "b", "c"] : List String).length ∧
    (((Finset.range (["a", "b", "c"] : List String).length).filter
        (fun r => select (mkThings ["a", "b", "c"]) none r
          = (mkThings ["a", "b", "c"]).val[1]?)).card = 1 ∧
      (Finset.range (["a", "b", "c"] : List String).length).card
        = (["a", "b", "c"] : List String).length) :=
  ⟨by decide, C4_uniform_selection ["a", "b", "c"] 1 (by decide)⟩

/-- C5: the chat-integration endpoint ignores the request body and any index,
selects via the random choice alone, and returns the in_channel payload
holding the raw markdown of the chosen entry — on a one-entry catalog always
that entry's markdown, never its HTML. -/
theorem C5_chat_endpoint (things : Things) (b1 b2 : String) (i1 i2 : Option Nat)
    (r : Nat) (s : String) :
    slack_handler things b1 i1 r = slack_handler things b2 i2 r ∧
    (∀ p, choose things.val r = some p →
      slack_handler things b1 i1 r = .ok ⟨"in_channel", p.2.markdown⟩) ∧
    slack_handler (mkThings [s]) b1 i1 r = .ok ⟨"in_channel", s⟩ := by
  refine ⟨rfl, fun p hp => ?_, ?_⟩
  · cases p with
    | mk idx th => simp [slack_handler, hp]
  · have hlen : (mkThings [s]).val.length = 1 := mkThings_length [s]
    have hch : choose (mkThings [s]).val r = (mkThings [s]).val[0]? := by
      unfold choose
      rw [if_neg (by rw [hlen]; omega), hlen, Nat.mod_one]
    have h0 : (mkThings [s]).val[0]? = some (0, Thing.fromMarkdown s) := by
      rw [mkThings_getElem?]; rfl
    simp [slack_handler, hch, h0, Thing.fromMarkdown]

/-- Witness for C5 on a one-entry catalog with two different request bodies. -/
theorem C5_witness :
    slack_handler (mkThings ["**A**"]) "body-one" (some 7) 5
        = slack_handler (mkThings ["**A**"]) "body-two" none 5 ∧
    slack_handler (mkThings ["**A**"]) "body-one" (some 7) 5
        = .ok ⟨"in_channel", "**A**"⟩ :=
  ⟨(C5_chat_endpoint (mkThings ["**A**"]) "body-one" "body-two" (some 7) none 5 "**A**").1,
   (C5_chat_endpoint (mkThings ["**A**"]) "body-one" "body-two" (some 7) none 5 "**A**").2.2⟩

/-- C6: catalog construction fails, with the deserialization error, exactly
when the raw source cannot be parsed into an ordered sequence of strings; a
successful parse always yields the loaded catalog (rendering never fails);
and make_service surfaces the error, aborting startup, exactly in the parse
failure case. -/
theorem C6_startup_failure (parse : String → Except String (List String)) (src : String) :
    (∀ e, parse src = .error e → make_service parse src = .error (.DeserializeError e)) ∧
    (∀ raw, parse src = .ok raw → make_service parse src = .ok (mkThings raw)) ∧
    (∀ err, make_service parse src = .error err →
      ∃ e, parse src = .error e ∧ err = .DeserializeError e) := by
  refine ⟨fun e h => ?_, fun raw h => ?_, fun err h => ?_⟩
  · simp [make_service, load_things, h]
  · simp [make_service, load_things, h]
  · cases hp : parse src with
    | error e =>
      refine ⟨e, rfl, ?_⟩
      simp [make_service, load_things, hp] at h
      exact h.symm
    | ok raw => simp [make_service, load_things, hp] at h

/-- Witness for C6: a failing parser aborts service construction with the
wrapped error, a succeeding parser yields the catalog. -/
theorem C6_witness :
    make_service (fun _ => .error "bad") "x" = .error (.DeserializeError "bad") ∧
    make_service (fun _ => .ok ["a"]) "x" = .ok (mkThings ["a"]) :=
  ⟨(C6_startup_failure (fun _ => .error "bad") "x").1 "bad" rfl,
   (C6_startup_failure (fun _ => .ok ["a"]) "x").2.1 ["a"] rfl⟩

/-- C7 as stated is false on the code: on the empty catalog with no requested
index the handler returns the very same not-found error value as an
out-of-range explicit index on a non-empty catalog — there is no distinct
empty-catalog outcome. -/
theorem C7_counterexample :
    index (mkThings []) none "http://x/" 0 = .error (.notFound "Not found") ∧
    index (mkThings []) none "http://x/" 0 = index (mkThings ["a"]) (some 5) "http://x/" 0 :=
  ⟨rfl, rfl⟩

/-- C7 (amended): selection on an empty catalog with no requested index
returns the not-found outcome — the same outcome as an invalid explicit
index — and never crashes, for every RNG draw and base URL. -/
theorem C7_amended_empty_not_found (base : String) (r : Nat) :
    index (mkThings []) none base r = .error (.notFound "Not found") := by
  simp [index, select, choose, mkThings]

/-- C8: the markdown renderer of the Thing conversion is a pure deterministic
total function — equal inputs yield equal Things, and the conversion always
returns the original markdown paired with its rendering, with no failure
outcome. -/
theorem C8_render_deterministic (m m2 : String) (h : m = m2) :
    Thing.fromMarkdown m = Thing.fromMarkdown m2 ∧
    (Thing.fromMarkdown m).markdown = m ∧
    (Thing.fromMarkdown m).html = render m := by
  subst h
  exact ⟨rfl, rfl, rfl⟩

/-- Witness for C8 at a concrete markdown input. -/
theorem C8_witness :
    ("**A**" : String) = "**A**" ∧
    (Thing.fromMarkdown "**A**" = Thing.fromMarkdown "**A**" ∧
      (Thing.fromMarkdown "**A**").markdown = "**A**" ∧
      (Thing.fromMarkdown "**A**").html = render "**A**") :=
  ⟨rfl, C8_render_deterministic "**A**" "**A**" rfl⟩

/-- C9: every successful response of the retrieval endpoint, on the random
branch and on the explicit-index branch alike, carries the Cache-Control
no-store directive. -/
theorem C9_no_store (things : Things) (item : Option Nat) (base : String) (r : Nat)
    (resp : Response) (h : index things item base r = .ok resp) :
    ("Cache-Control", "no-store") ∈ resp.headers := by
  unfold index at h
  cases hsel : select things item r with
  | none => rw [hsel] at h; cases h
  | some p =>
    cases p with
    | mk idx th =>
      rw [hsel] at h
      cases h
      simp [Response.withHeader]

/-- Witness for C9 on both branches of a one-entry catalog. -/
theorem C9_witness :
    (index (mkThings ["a"]) none "http://x/" 0
        = .ok ((Response.mk (index_view "http://x/" 0 (Thing.fromMarkdown "a")) []).withHeader
            "Cache-Control" "no-store") ∧
      ("Cache-Control", "no-store") ∈ ((Response.mk
            (index_view "http://x/" 0 (Thing.fromMarkdown "a")) []).withHeader
            "Cache-Control" "no-store").headers) ∧
    (index (mkThings ["a"]) (some 0) "http://x/" 3
        = .ok ((Response.mk (index_view "http://x/" 0 (Thing.fromMarkdown "a")) []).withHeader
            "Cache-Control" "no-store") ∧
      ("Cache-Control", "no-store") ∈ ((Response.mk
            (index_view "http://x/" 0 (Thing.fromMarkdown "a")) []).withHeader
            "Cache-Control" "no-store").headers) :=
  ⟨⟨rfl, C9_no_store (mkThings ["a"]) none "http://x/" 0 _ rfl⟩,
   ⟨rfl, C9_no_store (mkThings ["a"]) (some 0) "http://x/" 3 _ rfl⟩⟩

/-- C10: the build-time conversion of build.rs and the startup-time
conversion of view.rs compute the same function — identical markdown and
identical html on every input. -/
theorem C10_build_matches_view (m : String) :
    (BuildThing.fromMarkdown m).markdown = (Thing.fromMarkdown m).markdown ∧
    (BuildThing.fromMarkdown m).html = (Thing.fromMarkdown m).html :=
  ⟨rfl, rfl⟩

end ThingsToCheck
